import Mathlib

/-!
Verification of the CMPE148 reliable-chat core (protocol.py, client.py,
server.py) against its natural-language specification.

The development shallowly embeds the Python source:
* bytes are `List Nat` (each element a byte value),
* the frame codec (`ProtocolMessage.serialize` / `ProtocolMessage.deserialize`)
  is embedded over an abstract payload type `P` together with the two standard
  library functions the Python code calls out to — `json.dumps`/`json.loads`
  (as `jsonEncode`/`jsonDecode`) and the 4-byte MD5 checksum from `hashlib`
  (as `md5p`).  These library functions are parameters; every theorem states
  exactly the library contract it needs (e.g. `jsonDecode (jsonEncode p) =
  some p` for JSON-serializable payloads).
* stateful code (the server registry, the client ARQ loop) becomes explicit
  state passing; the asynchronous receive path of the ARQ loop is modelled by
  a per-attempt outcome function.

The file is laid out as definitions first, then theorems.
-/

namespace Chat

/-- The 13 application-layer message types (protocol.py, `class MessageType`),
    wire values 1..13. -/
inductive MessageType
  | CONNECT | CONNECT_ACK | DISCONNECT
  | CHAT_MSG | CHAT_ACK
  | BROADCAST | BROADCAST_ACK
  | PRIVATE_MSG | PRIVATE_ACK
  | NACK | ERROR
  | HEARTBEAT | HEARTBEAT_ACK
  deriving DecidableEq

/-- Integer wire value of a message type (the `IntEnum` values). -/
def MessageType.toNat : MessageType → Nat
  | .CONNECT => 1
  | .CONNECT_ACK => 2
  | .DISCONNECT => 3
  | .CHAT_MSG => 4
  | .CHAT_ACK => 5
  | .BROADCAST => 6
  | .BROADCAST_ACK => 7
  | .PRIVATE_MSG => 8
  | .PRIVATE_ACK => 9
  | .NACK => 10
  | .ERROR => 11
  | .HEARTBEAT => 12
  | .HEARTBEAT_ACK => 13

/-- Partial inverse of `MessageType.toNat`: Python's `MessageType(n)` enum
    conversion, which raises `ValueError` (here `none`) outside 1..13. -/
def MessageType.ofNat? : Nat → Option MessageType
  | 1 => some .CONNECT
  | 2 => some .CONNECT_ACK
  | 3 => some .DISCONNECT
  | 4 => some .CHAT_MSG
  | 5 => some .CHAT_ACK
  | 6 => some .BROADCAST
  | 7 => some .BROADCAST_ACK
  | 8 => some .PRIVATE_MSG
  | 9 => some .PRIVATE_ACK
  | 10 => some .NACK
  | 11 => some .ERROR
  | 12 => some .HEARTBEAT
  | 13 => some .HEARTBEAT_ACK
  | _ => none

/-- Big-endian encoding of `n` into `k` bytes (the multi-byte fields of
    `struct.pack` with format `!BBIQIIH`). -/
def natToBytesBE : Nat → Nat → List Nat
  | 0, _ => []
  | k + 1, n => natToBytesBE k (n / 256) ++ [n % 256]

/-- Big-endian decoding of a byte list (the inverse direction used by
    `struct.unpack`). -/
def bytesFromBE (l : List Nat) : Nat := l.foldl (fun a b => a * 256 + b) 0

/-- `version`, `msg_type`, `sequence_num`, `timestamp`, `payload` of a
    `ProtocolMessage`.  The Python constructor always sets `self.version`
    to the constant `VERSION = 1`, so the version is not a field here; the
    mutable `checksum` attribute is recomputed from the payload on
    serialization and is likewise omitted. -/
structure Message (P : Type) where
  mtype : MessageType
  sequenceNum : Nat
  timestamp : Nat
  payload : P
  deriving DecidableEq

/-- The 24 header bytes laid out by `struct.pack` with format `!BBIQIIH`
    (network byte order): version:1, type:1, sequence:4, timestamp:8,
    payloadLength:4, checksum:4, reserved:2 (zero). -/
def rawHeader (v t s ts pl cs : Nat) : List Nat :=
  natToBytesBE 1 v ++ natToBytesBE 1 t ++ natToBytesBE 4 s ++ natToBytesBE 8 ts ++
    natToBytesBE 4 pl ++ natToBytesBE 4 cs ++ natToBytesBE 2 0

/-- `struct.pack` raises `struct.error` (here `none`) when a field exceeds its
    format width; otherwise it produces the 24 header bytes. -/
def packHeader (v t s ts pl cs : Nat) : Option (List Nat) :=
  if v < 256 ∧ t < 256 ∧ s < 2 ^ 32 ∧ ts < 2 ^ 64 ∧ pl < 2 ^ 32 ∧ cs < 2 ^ 32 then
    some (rawHeader v t s ts pl cs)
  else none

/-- `ProtocolMessage.serialize`: encode the payload (`json.dumps(...).encode`),
    compute the 4-byte MD5 checksum over the payload bytes, pack the header,
    and concatenate header and payload. -/
def serialize {P : Type} (jsonEncode : P → List Nat) (md5p : List Nat → Nat)
    (m : Message P) : Option (List Nat) :=
  let payloadBytes := jsonEncode m.payload
  let checksum := md5p payloadBytes
  (packHeader 1 m.mtype.toNat m.sequenceNum m.timestamp payloadBytes.length checksum).map
    (· ++ payloadBytes)

/-- Value of the header field of width `len` bytes starting at byte offset
    `off` (a component of `struct.unpack(HEADER_FORMAT, data[:24])`). -/
def headerField (data : List Nat) (off len : Nat) : Nat :=
  bytesFromBE ((data.drop off).take len)

/-- Outcome of `ProtocolMessage.deserialize`: a message, the `None` returned
    for a dropped (malformed) input, or an uncaught exception escaping the
    classmethod. -/
inductive DeserResult (P : Type)
  | ok (m : Message P)
  | dropped
  | raised
  deriving DecidableEq

/-- `ProtocolMessage.deserialize`: header-size check, header unpack, version
    check, payload-length check, checksum check, JSON decode (a failure of
    which is caught and turned into `None`), then the `MessageType(msg_type)`
    enum conversion — which is NOT inside the try/except, so an out-of-range
    type byte raises an uncaught `ValueError` (`DeserResult.raised`). -/
def deserialize {P : Type} (jsonDecode : List Nat → Option P) (md5p : List Nat → Nat)
    (data : List Nat) : DeserResult P :=
  if data.length < 24 then .dropped
  else
    let version := headerField data 0 1
    let msgType := headerField data 1 1
    let seqNum := headerField data 2 4
    let timestamp := headerField data 6 8
    let payloadLen := headerField data 14 4
    let checksum := headerField data 18 4
    if version ≠ 1 then .dropped
    else if data.length < 24 + payloadLen then .dropped
    else
      let payloadBytes := (data.drop 24).take payloadLen
      if md5p payloadBytes ≠ checksum then .dropped
      else
        match jsonDecode payloadBytes with
        | none => .dropped
        | some p =>
          match MessageType.ofNat? msgType with
          | none => .raised
          | some t => .ok ⟨t, seqNum, timestamp, p⟩

/-- Concrete payload codec standing in for `json.dumps`/`json.loads` in
    witnesses: a small injective encoding of a natural number payload. -/
def jsonEncodeW (n : Nat) : List Nat := [n + 48]

/-- Concrete payload decode inverting `jsonEncodeW` (witness stand-in for
    `json.loads`). -/
def jsonDecodeW : List Nat → Option Nat
  | [b] => if 48 ≤ b then some (b - 48) else none
  | _ => none

/-- Concrete checksum function standing in for the 4-byte MD5 checksum in
    witnesses (any function of the payload bytes exercises the same checks). -/
def md5W (l : List Nat) : Nat := (l.foldl (fun a b => a * 31 + b) 7) % (2 ^ 32)

/-! Routed (application-level) messages.  At this level only the type, the
sequence number and the JSON payload matter; the payload is a string-keyed
map of scalar values.  The `version` field is the constant 1 and the
`timestamp` is taken from the wall clock by the `ProtocolMessage` constructor
and never read by any handler, so neither appears here. -/

/-- A JSON scalar payload value (the payloads this program builds contain
    strings, integers and booleans). -/
inductive PVal
  | s (v : String)
  | n (v : Nat)
  | b (v : Bool)
  deriving DecidableEq

/-- A JSON-object payload: a string-keyed map, as an association list. -/
abbrev Payload := List (String × PVal)

/-- `dict.get(key)` on a payload: first binding of the key, if any. -/
def pget : Payload → String → Option PVal
  | [], _ => none
  | (k, v) :: rest, key => if k = key then some v else pget rest key

/-- A routed message: `msg_type`, `sequence_num` and JSON payload. -/
structure RMsg where
  mtype : MessageType
  seq : Nat
  payload : Payload
  deriving DecidableEq

/-- The `ack_type_map` of `ProtocolMessage.create_ack`, with its
    `CHAT_ACK` default for unmapped types. -/
def ackTypeFor : MessageType → MessageType
  | .CONNECT => .CONNECT_ACK
  | .CHAT_MSG => .CHAT_ACK
  | .BROADCAST => .BROADCAST_ACK
  | .PRIVATE_MSG => .PRIVATE_ACK
  | .HEARTBEAT => .HEARTBEAT_ACK
  | _ => .CHAT_ACK

/-- `ProtocolMessage.create_ack`: ACK variant of the original type, same
    sequence number, payload with ack_for and status success. -/
def createAck (m : RMsg) : RMsg :=
  ⟨ackTypeFor m.mtype, m.seq,
    [("ack_for", .n m.seq), ("status", .s "success")]⟩

/-- `ProtocolMessage.create_nack`: type NACK, same sequence number, payload
    with nack_for, the reason, and status failure. -/
def createNack (m : RMsg) (reason : String) : RMsg :=
  ⟨.NACK, m.seq,
    [("nack_for", .n m.seq), ("reason", .s reason), ("status", .s "failure")]⟩

/-- `del d[k]` on an integer-keyed dict (as an association list): remove the
    binding of `k`.  The source always guards the deletion with a membership
    test, which makes it equivalent to this unconditional key-erasure. -/
def delKey {α : Type} (l : List (Nat × α)) (k : Nat) : List (Nat × α) :=
  l.filter (fun e => decide (e.1 ≠ k))

/-- `key in d` on a dict modelled as an association list. -/
def dictMem {κ α : Type} [DecidableEq κ] (l : List (κ × α)) (k : κ) : Bool :=
  l.any (fun e => decide (e.1 = k))

/-- `ReliableClient._handle_ack`: look up `ack_for` in the payload and, when
    it names a pending sequence number, delete that pending entry.  (The
    stored tuple also carries the send time and retry count; they are never
    read by the resolution path and are omitted.) -/
def clientHandleAck (pending : List (Nat × RMsg)) (m : RMsg) : List (Nat × RMsg) :=
  match pget m.payload "ack_for" with
  | some (.n k) => delKey pending k
  | _ => pending

/-- `ReliableClient._handle_nack`: identical resolution via `nack_for`. -/
def clientHandleNack (pending : List (Nat × RMsg)) (m : RMsg) : List (Nat × RMsg) :=
  match pget m.payload "nack_for" with
  | some (.n k) => delKey pending k
  | _ => pending

/-! The Stop-and-Wait ARQ loop of `ReliableClient._send_reliable`.  The
asynchronous receive path (which removes the pending entry when a matching
ACK or NACK is processed, via `clientHandleAck`/`clientHandleNack`) is
abstracted into a per-attempt outcome: during the 2.0-second wait following
attempt `i`, either nothing arrives (`lost`), a matching ACK arrives
(`acked`), or a matching NACK arrives (`nacked`).  In the last two cases the
receive path removes the pending entry and the poll loop, observing the
absence of the key, returns `True`. -/

/-- `ReliableClient.MAX_RETRIES`. -/
def MAX_RETRIES : Nat := 3

/-- `ReliableClient.ACK_TIMEOUT` (2.0 seconds; the exact float value). -/
def ACK_TIMEOUT : ℚ := 2

/-- What the network/peer does with one transmission attempt. -/
inductive AttemptOutcome
  | lost | acked | nacked
  deriving DecidableEq

/-- Observable events of one `_send_reliable` execution:
    `transmit i` = `self._send_message(message)` of the `i`-th attempt of the
    identical message (same sequence number and bytes);
    `register` = `self.pending_acks[seq_num] = (message, time.time(), retries)`;
    `resolve` = removal of the entry by the receive path (ACK or NACK);
    `unregister` = the final `del self.pending_acks[seq_num]` on exhaustion. -/
inductive SendEv
  | transmit (attempt : Nat)
  | register
  | resolve
  | unregister
  deriving DecidableEq

/-- The `while retries <= self.MAX_RETRIES` loop of `_send_reliable`: send the
    message, record the pending entry, wait; on resolution return `True`; on
    timeout retry; after the loop delete the pending entry and return `False`.
    `fuel` is the number of loop iterations still allowed
    (`MAX_RETRIES + 1 - retries`); `attempt` numbers transmissions from 1. -/
def sendLoop (resp : Nat → AttemptOutcome) : Nat → Nat → Bool × List SendEv
  | 0, _ => (false, [.unregister])
  | fuel + 1, attempt =>
    match resp attempt with
    | .lost =>
      let r := sendLoop resp fuel (attempt + 1)
      (r.1, .transmit attempt :: .register :: r.2)
    | _ => (true, [.transmit attempt, .register, .resolve])

/-- `ReliableClient._send_reliable`: the full loop starting at `retries = 0`,
    returning the boolean result together with the event trace. -/
def sendReliable (resp : Nat → AttemptOutcome) : Bool × List SendEv :=
  sendLoop resp (MAX_RETRIES + 1) 1

/-- Number of transmissions in a trace. -/
def transmissionCount (tr : List SendEv) : Nat :=
  (tr.filter fun e => match e with | .transmit _ => true | _ => false).length

/-- Whether the PendingSend entry is still in the table after the trace. -/
def entryPresentAfter (tr : List SendEv) : Bool :=
  tr.foldl
    (fun st e => match e with
      | .register => true
      | .resolve => false
      | .unregister => false
      | _ => st)
    false

/-- Whether the PendingSend entry is in the table at the moment of every
    transmission in the trace, starting from presence state `st`. -/
def presentAtTransmits : Bool → List SendEv → Bool
  | _, [] => true
  | st, .transmit _ :: rest => st && presentAtTransmits st rest
  | _, .register :: rest => presentAtTransmits true rest
  | _, .resolve :: rest => presentAtTransmits false rest
  | _, .unregister :: rest => presentAtTransmits false rest

/-- Whether every transmission in the trace is immediately followed by the
    registration of the pending entry. -/
def transmitThenRegister : List SendEv → Bool
  | [] => true
  | .transmit _ :: .register :: rest => transmitThenRegister rest
  | .transmit _ :: _ => false
  | .register :: rest => transmitThenRegister rest
  | .resolve :: rest => transmitThenRegister rest
  | .unregister :: rest => transmitThenRegister rest

/-- A simulated transport that silently drops the first `K` attempts to
    deliver the message and acknowledges any later attempt. -/
def dropFirst (K : Nat) : Nat → AttemptOutcome :=
  fun t => if t ≤ K then .lost else .acked

/-- A concrete CONNECT message (used in evaluations). -/
def connectMsg7 : RMsg := ⟨.CONNECT, 7, [("username", .s "alice")]⟩

/-- The NACK the server sends for `connectMsg7` when the name is taken. -/
def nackMsg7 : RMsg := createNack connectMsg7 "Username already taken"

/-! Server side: `ClientConnection`, the `ChatServer` registry, and the
message router (`_process_message` and the `_handle_*` methods).  Each
handler is one atomic transition of the registry state (the source guards
its registry reads/writes with the single `clients_lock` critical section)
and returns the new state together with the list of (recipient client id,
message) sends it performs, in order. -/

/-- One `ClientConnection`: client id, optional bound username, alive flag,
    and the per-session PendingSend table (`pending_acks`).  The transport
    handle, the address and the last-heartbeat timestamp are never read by
    the routing logic below and are omitted. -/
structure ClientConn where
  clientId : Nat
  username : Option PVal
  connected : Bool
  pendingAcks : List (Nat × RMsg)
  deriving DecidableEq

/-- The `ChatServer` registry: the id→session dict (`clients`, an
    insertion-ordered association list), the username→session dict
    (`username_to_client`, sessions referenced here by their client id), and
    the server's own sequence counter. -/
structure ChatServer where
  clients : List (Nat × ClientConn)
  usernameToClient : List (PVal × Nat)
  sequenceNum : Nat
  deriving DecidableEq

/-- `dict.get(k)` on an association-list dict. -/
def dictGet {κ α : Type} [DecidableEq κ] (l : List (κ × α)) (k : κ) : Option α :=
  (l.find? (fun e => decide (e.1 = k))).map (fun e => e.2)

/-- Mutation of the shared `ClientConnection` object with id `cid`, as seen
    through the id→session dict. -/
def updateClient (clients : List (Nat × ClientConn)) (cid : Nat)
    (f : ClientConn → ClientConn) : List (Nat × ClientConn) :=
  clients.map (fun e => if e.1 = cid then (e.1, f e.2) else e)

/-- Python truthiness of the optional username (the `c.username` test):
    `None`, the empty string, integer 0 and `False` are all falsy. -/
def pyTruthy : Option PVal → Bool
  | none => false
  | some (.s v) => decide (v ≠ "")
  | some (.n k) => decide (k ≠ 0)
  | some (.b v) => v

/-- Python `str()` of a payload value (f-string interpolation). -/
def pvalStr : PVal → String
  | .s v => v
  | .n k => toString k
  | .b true => "True"
  | .b false => "False"

/-- `str()` of an optional payload value (`str(None)` is the text None). -/
def pvalOptStr : Option PVal → String
  | none => "None"
  | some v => pvalStr v

/-- `ChatServer._broadcast_message` target selection: the ids of
    `[c for c in clients.values()
       if c.connected and c != exclude_client and c.username]`
    (object inequality modelled by client-id inequality; note the Python
    truthiness test on `c.username`). -/
def broadcastTargets (clients : List (Nat × ClientConn)) (excludeId : Option Nat) :
    List Nat :=
  (clients.filter (fun e =>
    e.2.connected &&
    (match excludeId with | some x => decide (e.1 ≠ x) | none => true) &&
    pyTruthy e.2.username)).map (fun e => e.1)

/-- `MessageBuilder.broadcast_message`. -/
def broadcastMessage (username message : String) (seq : Nat) : RMsg :=
  ⟨.BROADCAST, seq, [("username", .s username), ("message", .s message),
    ("broadcast", .b true)]⟩

/-- `MessageBuilder.error_message`. -/
def errorMessage (err : String) (seq : Nat) : RMsg :=
  ⟨.ERROR, seq, [("error", .s err)]⟩

/-- `ChatServer._handle_connect`: derive the username (defaulting to
    `User<client_id>` when the payload has no username key); if it is already
    a key of `username_to_client`, send a NACK and stop — check and
    registration both happen inside the single `clients_lock` critical
    section, modelled here as one atomic transition; otherwise bind the
    username on the session and in the index, ACK, and broadcast the joined
    notice (with a fresh server sequence number) to all other sessions. -/
def handleConnect (st : ChatServer) (c : ClientConn) (m : RMsg) :
    ChatServer × List (Nat × RMsg) :=
  let username : PVal := (pget m.payload "username").getD
    (.s ("User" ++ toString c.clientId))
  if dictMem st.usernameToClient username then
    (st, [(c.clientId, createNack m "Username already taken")])
  else
    let st2 : ChatServer := { st with
      clients := updateClient st.clients c.clientId
        (fun cc => { cc with username := some username }),
      usernameToClient := (username, c.clientId) :: st.usernameToClient }
    let joinMsg := broadcastMessage "SERVER"
      (pvalStr username ++ " has joined the chat") st.sequenceNum
    ({ st2 with sequenceNum := st.sequenceNum + 1 },
      (c.clientId, createAck m) ::
        (broadcastTargets st2.clients (some c.clientId)).map (fun cid => (cid, joinMsg)))

/-- `ChatServer._handle_disconnect`: ACK, then mark the session dead. -/
def handleDisconnect (st : ChatServer) (c : ClientConn) (m : RMsg) :
    ChatServer × List (Nat × RMsg) :=
  ({ st with clients := (updateClient st.clients c.clientId
      (fun cc => { cc with connected := false })) },
    [(c.clientId, createAck m)])

/-- `ChatServer._handle_chat_message`: ACK the sender, then fan the original
    message out to all other sessions (sender excluded). -/
def handleChatMessage (st : ChatServer) (c : ClientConn) (m : RMsg) :
    ChatServer × List (Nat × RMsg) :=
  (st, (c.clientId, createAck m) ::
    (broadcastTargets st.clients (some c.clientId)).map (fun cid => (cid, m)))

/-- `ChatServer._handle_broadcast`: ACK the sender, then fan the original
    message out to all sessions including the sender. -/
def handleBroadcast (st : ChatServer) (c : ClientConn) (m : RMsg) :
    ChatServer × List (Nat × RMsg) :=
  (st, (c.clientId, createAck m) ::
    (broadcastTargets st.clients none).map (fun cid => (cid, m)))

/-- `ChatServer._handle_private_message`: ACK the sender; forward the message
    to the recipient if its session is known and alive, otherwise send an
    ERROR (with a fresh server sequence number) back to the sender. -/
def handlePrivateMessage (st : ChatServer) (c : ClientConn) (m : RMsg) :
    ChatServer × List (Nat × RMsg) :=
  let recipient := pget m.payload "recipient"
  let rentry : Option (Nat × ClientConn) :=
    match recipient with
    | some r =>
      match dictGet st.usernameToClient r with
      | some i => (dictGet st.clients i).map (fun cc => (i, cc))
      | none => none
    | none => none
  let errPath : ChatServer × List (Nat × RMsg) :=
    ({ st with sequenceNum := st.sequenceNum + 1 },
      [(c.clientId, createAck m),
       (c.clientId, errorMessage
         ("User \x27" ++ pvalOptStr recipient ++ "\x27 not found or offline")
         st.sequenceNum)])
  match rentry with
  | some e =>
    if e.2.connected then (st, [(c.clientId, createAck m), (e.1, m)])
    else errPath
  | none => errPath

/-- `ChatServer._handle_heartbeat`: reply with an ACK only. -/
def handleHeartbeat (st : ChatServer) (c : ClientConn) (m : RMsg) :
    ChatServer × List (Nat × RMsg) :=
  (st, [(c.clientId, createAck m)])

/-- `ChatServer._handle_ack`: look up `ack_for` in the payload and, when it
    names a pending sequence number of the sending session, delete that
    pending entry.  Nothing is sent. -/
def handleAck (st : ChatServer) (c : ClientConn) (m : RMsg) :
    ChatServer × List (Nat × RMsg) :=
  match pget m.payload "ack_for" with
  | some (.n k) =>
    ({ st with clients := (updateClient st.clients c.clientId
        (fun cc => { cc with pendingAcks := delKey cc.pendingAcks k })) }, [])
  | _ => (st, [])

/-- `ChatServer._process_message`: dispatch on the message type.  Note that
    the ACK branch lists only CHAT_ACK, BROADCAST_ACK, PRIVATE_ACK and
    CONNECT_ACK; NACK, HEARTBEAT_ACK and ERROR fall through to the final
    `else` (a logged "Unknown message type", no state change, no sends). -/
def processMessage (st : ChatServer) (c : ClientConn) (m : RMsg) :
    ChatServer × List (Nat × RMsg) :=
  match m.mtype with
  | .CONNECT => handleConnect st c m
  | .DISCONNECT => handleDisconnect st c m
  | .CHAT_MSG => handleChatMessage st c m
  | .BROADCAST => handleBroadcast st c m
  | .PRIVATE_MSG => handlePrivateMessage st c m
  | .HEARTBEAT => handleHeartbeat st c m
  | .CHAT_ACK => handleAck st c m
  | .BROADCAST_ACK => handleAck st c m
  | .PRIVATE_ACK => handleAck st c m
  | .CONNECT_ACK => handleAck st c m
  | _ => (st, [])

/-- The recipient ids of the copies of `msg` among a handler's sends. -/
def recipientsOf (sends : List (Nat × RMsg)) (msg : RMsg) : List Nat :=
  (sends.filter (fun e => decide (e.2 = msg))).map (fun e => e.1)

/-! Concrete sessions, states and messages used by counterexamples and
witnesses. -/

/-- A registered session with username A. -/
def connA : ClientConn := ⟨1, some (.s "A"), true, []⟩

/-- A connected but not yet registered session (id 2). -/
def connB0 : ClientConn := ⟨2, none, true, []⟩

/-- A server with the registered session A and the unregistered session 2. -/
def stAB : ChatServer := ⟨[(1, connA), (2, connB0)], [(.s "A", 1)], 10⟩

/-- A CONNECT whose supplied username is the empty string. -/
def emptyNameConnect : RMsg := ⟨.CONNECT, 0, [("username", .s "")]⟩

/-- `stAB` after session 2 registers the empty-string username. -/
def stAB2 : ChatServer := (handleConnect stAB connB0 emptyNameConnect).1

/-- A BROADCAST message from A. -/
def bmsgA : RMsg :=
  ⟨.BROADCAST, 3, [("username", .s "A"), ("message", .s "hi"), ("broadcast", .b true)]⟩

/-- A pending server-side message with sequence number 5. -/
def pendMsg : RMsg := ⟨.CHAT_MSG, 5, [("username", .s "A"), ("message", .s "x")]⟩

/-- A session whose PendingSend table holds sequence number 5. -/
def connP : ClientConn := ⟨1, some (.s "A"), true, [(5, pendMsg)]⟩

/-- A server containing only `connP`. -/
def stP : ChatServer := ⟨[(1, connP)], [(.s "A", 1)], 0⟩

/-- A NACK frame arriving at the server, naming pending sequence number 5. -/
def nackToServer : RMsg :=
  ⟨.NACK, 5, [("nack_for", .n 5), ("reason", .s "r"), ("status", .s "failure")]⟩

/-- A HEARTBEAT_ACK frame arriving at the server, naming sequence number 5. -/
def hbAckToServer : RMsg :=
  ⟨.HEARTBEAT_ACK, 5, [("ack_for", .n 5), ("status", .s "success")]⟩

/-- A CHAT_ACK frame arriving at the server, naming sequence number 5. -/
def chatAckToServer : RMsg :=
  ⟨.CHAT_ACK, 5, [("ack_for", .n 5), ("status", .s "success")]⟩

/-- A CONNECT that asks for the already-bound username A. -/
def mConnectA : RMsg := ⟨.CONNECT, 3, [("username", .s "A")]⟩

/-- A CONNECT whose payload has no username key. -/
def mConnectNoName : RMsg := ⟨.CONNECT, 4, [("action", .s "connect")]⟩

/-- A registered session with username B (id 2). -/
def connB : ClientConn := ⟨2, some (.s "B"), true, []⟩

/-- An unregistered session (id 3). -/
def connU : ClientConn := ⟨3, none, true, []⟩

/-- A server with two registered sessions (A, B) and one unregistered. -/
def stABU : ChatServer := ⟨[(1, connA), (2, connB), (3, connU)], [(.s "A", 1), (.s "B", 2)], 0⟩

/-- A CHAT_MSG from A. -/
def cmsgA : RMsg := ⟨.CHAT_MSG, 9, [("username", .s "A"), ("message", .s "hey")]⟩

/-! Theorems. -/

theorem MessageType.ofNat_toNat (t : MessageType) : MessageType.ofNat? t.toNat = some t := by
  cases t <;> rfl

theorem MessageType.toNat_lt_256 (t : MessageType) : t.toNat < 256 := by
  cases t <;> decide

theorem natToBytesBE_length (k n : Nat) : (natToBytesBE k n).length = k := by
  induction k generalizing n with
  | zero => rfl
  | succ k ih => simp [natToBytesBE, ih]

theorem bytesFromBE_append_one (l : List Nat) (b : Nat) :
    bytesFromBE (l ++ [b]) = bytesFromBE l * 256 + b := by
  simp [bytesFromBE, List.foldl_append]

theorem bytesFromBE_natToBytesBE (k n : Nat) (h : n < 256 ^ k) :
    bytesFromBE (natToBytesBE k n) = n := by
  induction k generalizing n with
  | zero =>
    simp [pow_zero] at h
    simp [natToBytesBE, bytesFromBE, h]
  | succ k ih =>
    have hdiv : n / 256 < 256 ^ k := by
      rw [Nat.div_lt_iff_lt_mul (by norm_num)]
      calc n < 256 ^ (k + 1) := h
        _ = 256 ^ k * 256 := by ring
    rw [natToBytesBE, bytesFromBE_append_one, ih _ hdiv]
    omega

theorem headerField_shift (X rest : List Nat) (a o k : Nat) (hX : X.length = a)
    (n : Nat) (hn : n = a + o) :
    headerField (X ++ rest) n k = headerField rest o k := by
  unfold headerField
  rw [hn, ← hX, List.drop_append]

theorem headerField_here (mid rest : List Nat) (k : Nat) (hk : mid.length = k) :
    headerField (mid ++ rest) 0 k = bytesFromBE mid := by
  unfold headerField
  rw [List.drop_zero, List.take_left' hk]

theorem rawHeader_length (v t s ts pl cs : Nat) :
    (rawHeader v t s ts pl cs).length = 24 := by
  simp [rawHeader, natToBytesBE_length]

theorem headerField_frame (v t s ts pl cs : Nat) (pb : List Nat)
    (hv : v < 256) (ht : t < 256) (hs : s < 2 ^ 32) (hts : ts < 2 ^ 64)
    (hpl : pl < 2 ^ 32) (hcs : cs < 2 ^ 32) :
    headerField (rawHeader v t s ts pl cs ++ pb) 0 1 = v ∧
    headerField (rawHeader v t s ts pl cs ++ pb) 1 1 = t ∧
    headerField (rawHeader v t s ts pl cs ++ pb) 2 4 = s ∧
    headerField (rawHeader v t s ts pl cs ++ pb) 6 8 = ts ∧
    headerField (rawHeader v t s ts pl cs ++ pb) 14 4 = pl ∧
    headerField (rawHeader v t s ts pl cs ++ pb) 18 4 = cs ∧
    (rawHeader v t s ts pl cs ++ pb).drop 24 = pb := by
  have hV := natToBytesBE_length 1 v
  have hT := natToBytesBE_length 1 t
  have hS := natToBytesBE_length 4 s
  have hTS := natToBytesBE_length 8 ts
  have hPL := natToBytesBE_length 4 pl
  have e : rawHeader v t s ts pl cs ++ pb =
      natToBytesBE 1 v ++ (natToBytesBE 1 t ++ (natToBytesBE 4 s ++ (natToBytesBE 8 ts ++
        (natToBytesBE 4 pl ++ (natToBytesBE 4 cs ++ (natToBytesBE 2 0 ++ pb)))))) := by
    simp [rawHeader]
  refine ⟨?_, ?_, ?_, ?_, ?_, ?_, List.drop_left' (rawHeader_length v t s ts pl cs)⟩
  · rw [e, headerField_here _ _ 1 hV]
    exact bytesFromBE_natToBytesBE 1 v (by simpa using hv)
  · rw [e, headerField_shift _ _ 1 0 1 hV 1 (by norm_num), headerField_here _ _ 1 hT]
    exact bytesFromBE_natToBytesBE 1 t (by simpa using ht)
  · rw [e, headerField_shift _ _ 1 1 4 hV 2 (by norm_num),
      headerField_shift _ _ 1 0 4 hT 1 (by norm_num), headerField_here _ _ 4 hS]
    exact bytesFromBE_natToBytesBE 4 s (by simpa using hs)
  · rw [e, headerField_shift _ _ 1 5 8 hV 6 (by norm_num),
      headerField_shift _ _ 1 4 8 hT 5 (by norm_num),
      headerField_shift _ _ 4 0 8 hS 4 (by norm_num), headerField_here _ _ 8 hTS]
    exact bytesFromBE_natToBytesBE 8 ts (by simpa using hts)
  · rw [e, headerField_shift _ _ 1 13 4 hV 14 (by norm_num),
      headerField_shift _ _ 1 12 4 hT 13 (by norm_num),
      headerField_shift _ _ 4 8 4 hS 12 (by norm_num),
      headerField_shift _ _ 8 0 4 hTS 8 (by norm_num), headerField_here _ _ 4 hPL]
    exact bytesFromBE_natToBytesBE 4 pl (by simpa using hpl)
  · rw [e, headerField_shift _ _ 1 17 4 hV 18 (by norm_num),
      headerField_shift _ _ 1 16 4 hT 17 (by norm_num),
      headerField_shift _ _ 4 12 4 hS 16 (by norm_num),
      headerField_shift _ _ 8 4 4 hTS 12 (by norm_num),
      headerField_shift _ _ 4 0 4 hPL 4 (by norm_num),
      headerField_here _ _ 4 (natToBytesBE_length 4 cs)]
    exact bytesFromBE_natToBytesBE 4 cs (by simpa using hcs)

/-- C3: For every message of any of the 13 message types with a schema-valid
    (JSON round-trippable) payload whose fields fit their wire widths,
    `deserialize (serialize m)` succeeds and yields a message with the same
    type, the same sequence number, and a payload deeply equal to `m`'s
    payload (indeed the whole abstract message, timestamp included, is
    recovered). -/
theorem roundtrip_serialize_deserialize {P : Type}
    (jsonEncode : P → List Nat) (jsonDecode : List Nat → Option P)
    (md5p : List Nat → Nat) (m : Message P)
    (hjson : jsonDecode (jsonEncode m.payload) = some m.payload)
    (hseq : m.sequenceNum < 2 ^ 32) (hts : m.timestamp < 2 ^ 64)
    (hlen : (jsonEncode m.payload).length < 2 ^ 32)
    (hmd5 : md5p (jsonEncode m.payload) < 2 ^ 32) :
    ∃ bs, serialize jsonEncode md5p m = some bs ∧
      deserialize jsonDecode md5p bs = .ok m := by
  have hv : (1 : Nat) < 256 := by norm_num
  have ht := m.mtype.toNat_lt_256
  refine ⟨rawHeader 1 m.mtype.toNat m.sequenceNum m.timestamp
      (jsonEncode m.payload).length (md5p (jsonEncode m.payload)) ++ jsonEncode m.payload,
    ?_, ?_⟩
  · unfold serialize packHeader
    dsimp only
    rw [if_pos ⟨hv, ht, hseq, hts, hlen, hmd5⟩]
    rfl
  · obtain ⟨f0, f1, f2, f6, f14, f18, fdrop⟩ :=
      headerField_frame 1 m.mtype.toNat m.sequenceNum m.timestamp
        (jsonEncode m.payload).length (md5p (jsonEncode m.payload)) (jsonEncode m.payload)
        hv ht hseq hts hlen hmd5
    have hlenTot : (rawHeader 1 m.mtype.toNat m.sequenceNum m.timestamp
        (jsonEncode m.payload).length (md5p (jsonEncode m.payload)) ++
          jsonEncode m.payload).length = 24 + (jsonEncode m.payload).length := by
      simp [rawHeader_length]
    unfold deserialize
    rw [if_neg (by omega)]
    dsimp only
    rw [f0, f1, f2, f6, f14, f18, fdrop, if_neg (by norm_num), if_neg (by omega),
      List.take_length, if_neg (by simp), hjson, MessageType.ofNat_toNat]

/-- C8: `deserialize` returns the `None` failure result (`dropped`), rather
    than a message, in each of these cases: input shorter than the 24-byte
    header; payload-length field claiming more bytes than are present;
    version field other than 1; checksum field differing from the checksum
    recomputed over the payload bytes; payload bytes that the JSON layer
    rejects (not valid UTF-8 or not a valid JSON document, i.e. the decode
    returns no document). -/
theorem deserialize_failure_cases {P : Type}
    (jsonDecode : List Nat → Option P) (md5p : List Nat → Nat) (data : List Nat)
    (h : data.length < 24
      ∨ data.length < 24 + headerField data 14 4
      ∨ headerField data 0 1 ≠ 1
      ∨ md5p ((data.drop 24).take (headerField data 14 4)) ≠ headerField data 18 4
      ∨ jsonDecode ((data.drop 24).take (headerField data 14 4)) = none) :
    deserialize jsonDecode md5p data = .dropped := by
  unfold deserialize
  dsimp only
  split_ifs with h1 h2 h3 h4
  · rfl
  · rfl
  · rfl
  · rfl
  · rcases h with h | h | h | h | h
    · omega
    · omega
    · exact absurd h h2
    · exact absurd h h4
    · rw [h]

/-- C9: `deserialize` is not total over byte inputs: an input whose header,
    version, payload length, checksum, and JSON payload are all valid but
    whose type byte is outside the enumerated range 1..13 (e.g. 14) makes
    `deserialize` raise the uncaught `ValueError` from the `MessageType`
    conversion (`raised`) instead of returning the `None` failure result. -/
theorem deserialize_raises_on_unknown_type {P : Type}
    (jsonDecode : List Nat → Option P) (md5p : List Nat → Nat)
    (pb : List Nat) (p : P) (tb seq ts : Nat)
    (hjson : jsonDecode pb = some p)
    (htb : MessageType.ofNat? tb = none) (htb2 : tb < 256)
    (hseq : seq < 2 ^ 32) (hts : ts < 2 ^ 64)
    (hlen : pb.length < 2 ^ 32) (hcs : md5p pb < 2 ^ 32) :
    deserialize jsonDecode md5p (rawHeader 1 tb seq ts pb.length (md5p pb) ++ pb) =
      .raised := by
  have hv : (1 : Nat) < 256 := by norm_num
  obtain ⟨f0, f1, f2, f6, f14, f18, fdrop⟩ :=
    headerField_frame 1 tb seq ts pb.length (md5p pb) pb hv htb2 hseq hts hlen hcs
  have hlenTot : (rawHeader 1 tb seq ts pb.length (md5p pb) ++ pb).length =
      24 + pb.length := by
    simp [rawHeader_length]
  unfold deserialize
  rw [if_neg (by omega)]
  dsimp only
  rw [f0, f1, f2, f6, f14, f18, fdrop, if_neg (by norm_num), if_neg (by omega),
    List.take_length, if_neg (by simp), hjson, htb]

/-- Witness for C3: a CHAT_MSG-typed message with sequence number 42 round-trips
    through serialize/deserialize under the concrete witness codec. -/
theorem roundtrip_witness :
    ∃ bs, serialize jsonEncodeW md5W ⟨.CHAT_MSG, 42, 1000, 5⟩ = some bs ∧
      deserialize jsonDecodeW md5W bs = .ok ⟨.CHAT_MSG, 42, 1000, 5⟩ :=
  roundtrip_serialize_deserialize jsonEncodeW jsonDecodeW md5W ⟨.CHAT_MSG, 42, 1000, 5⟩
    (by decide) (by decide) (by decide) (by decide) (by decide)

/-- Witness for C8: the empty input (shorter than the 24-byte header) is
    dropped by deserialize. -/
theorem deserialize_failure_witness : deserialize jsonDecodeW md5W [] = .dropped :=
  deserialize_failure_cases jsonDecodeW md5W [] (Or.inl (by decide))

/-- Witness for C9: a frame with valid header, version, length and checksum
    but type byte 14 makes deserialize raise. -/
theorem deserialize_raises_witness :
    deserialize jsonDecodeW md5W
      (rawHeader 1 14 42 1000 (jsonEncodeW 5).length (md5W (jsonEncodeW 5)) ++
        jsonEncodeW 5) = .raised :=
  deserialize_raises_on_unknown_type jsonDecodeW md5W (jsonEncodeW 5) 5 14 42 1000
    (by decide) (by decide) (by decide) (by decide) (by decide) (by decide) (by decide)

theorem sendLoop_congr (r1 r2 : Nat → AttemptOutcome) (fuel attempt : Nat)
    (h : ∀ i, attempt ≤ i → i < attempt + fuel → r1 i = r2 i) :
    sendLoop r1 fuel attempt = sendLoop r2 fuel attempt := by
  induction fuel generalizing attempt with
  | zero => rfl
  | succ fuel ih =>
    have hcur : r1 attempt = r2 attempt := h attempt le_rfl (by omega)
    have ihx := ih (attempt + 1) (fun i h1 h2 => h i (by omega) (by omega))
    simp only [sendLoop, hcur, ihx]

/-- C2: with a transport that drops the first `K` attempts, the ARQ loop of
    `_send_reliable` makes at most `MAX_RETRIES + 1 = 4` transmissions of the
    identical message; for `K ≤ 3` it succeeds after exactly `K + 1`
    transmissions, and for `K > 3` it fails after exactly 4 transmissions;
    in both cases no PendingSend entry remains afterwards. -/
theorem arq_retry_behavior (K : Nat) :
    (K ≤ MAX_RETRIES →
      (sendReliable (dropFirst K)).1 = true ∧
      transmissionCount (sendReliable (dropFirst K)).2 = K + 1 ∧
      entryPresentAfter (sendReliable (dropFirst K)).2 = false) ∧
    (MAX_RETRIES < K →
      (sendReliable (dropFirst K)).1 = false ∧
      transmissionCount (sendReliable (dropFirst K)).2 = MAX_RETRIES + 1 ∧
      entryPresentAfter (sendReliable (dropFirst K)).2 = false) := by
  constructor
  · intro hK
    have hK3 : K ≤ 3 := hK
    interval_cases K <;> decide
  · intro hK
    have hK3 : 3 < K := hK
    have hs : sendReliable (dropFirst K) = sendReliable (dropFirst 4) := by
      show sendLoop (dropFirst K) 4 1 = sendLoop (dropFirst 4) 4 1
      refine sendLoop_congr _ _ 4 1 (fun i h1 h2 => ?_)
      unfold dropFirst
      rw [if_pos (by omega), if_pos (by omega)]
    rw [hs]
    refine ⟨by decide, by decide, by decide⟩

/-- Witness for C2: with 2 drops the send succeeds in 3 transmissions; with
    5 drops it fails after 4 transmissions; no pending entry remains. -/
theorem arq_retry_witness :
    ((sendReliable (dropFirst 2)).1 = true ∧
      transmissionCount (sendReliable (dropFirst 2)).2 = 2 + 1 ∧
      entryPresentAfter (sendReliable (dropFirst 2)).2 = false) ∧
    ((sendReliable (dropFirst 5)).1 = false ∧
      transmissionCount (sendReliable (dropFirst 5)).2 = MAX_RETRIES + 1 ∧
      entryPresentAfter (sendReliable (dropFirst 5)).2 = false) :=
  ⟨(arq_retry_behavior 2).1 (by decide), (arq_retry_behavior 5).2 (by decide)⟩

/-- C7 is false on the code: in the execution where the very first attempt is
    acknowledged, the trace begins with the transmission, and the PendingSend
    entry is NOT in the table at the moment of that (first) transmission —
    `_send_reliable` sends the frame before recording the pending entry. -/
theorem transmit_before_register_counterexample :
    presentAtTransmits false (sendReliable (fun _ => AttemptOutcome.acked)).2 = false := by
  decide

theorem transmitThenRegister_sendLoop (resp : Nat → AttemptOutcome)
    (fuel attempt : Nat) :
    transmitThenRegister (sendLoop resp fuel attempt).2 = true := by
  induction fuel generalizing attempt with
  | zero => rfl
  | succ fuel ih =>
    cases h : resp attempt with
    | lost => simp [sendLoop, h, transmitThenRegister, ih]
    | acked => simp [sendLoop, h, transmitThenRegister]
    | nacked => simp [sendLoop, h, transmitThenRegister]

/-- C7 amended: in every execution of `_send_reliable`, each transmission of
    the message is immediately followed by the registration of the PendingSend
    entry for its sequence number — the frame is transmitted first and the
    entry registered afterwards, not the other way around. -/
theorem transmit_then_register_always (resp : Nat → AttemptOutcome) :
    transmitThenRegister (sendReliable resp).2 = true :=
  transmitThenRegister_sendLoop resp (MAX_RETRIES + 1) 1

theorem updateClient_mem_eq (clients : List (Nat × ClientConn)) (cid : Nat)
    (f : ClientConn → ClientConn) :
    ∀ e ∈ updateClient clients cid f, e.1 = cid → ∃ c0, e.2 = f c0 := by
  intro e he hkey
  simp only [updateClient, List.mem_map] at he
  obtain ⟨e0, he0, heq⟩ := he
  by_cases h0 : e0.1 = cid
  · rw [if_pos h0] at heq
    exact ⟨e0.2, by rw [← heq]⟩
  · rw [if_neg h0] at heq
    rw [← heq] at hkey
    exact absurd hkey h0

theorem ackTypeFor_ne_NACK (t : MessageType) : ackTypeFor t ≠ .NACK := by
  cases t <;> decide

theorem dictMem_delKey {α : Type} (l : List (Nat × α)) (k : Nat) :
    dictMem (delKey l k) k = false := by
  rw [Bool.eq_false_iff]
  intro hcontra
  simp only [dictMem, delKey, List.any_eq_true, List.mem_filter,
    decide_eq_true_eq] at hcontra
  obtain ⟨e, ⟨_, hne⟩, heq⟩ := hcontra
  exact hne heq

/-- C4: a CONNECT whose (derived) username is already bound in the registry is
    answered with a single NACK to the connecting session, carrying the
    reason, and nothing else happens: the registry state — both indices, the
    session's (absent) username, its alive flag — is entirely unchanged and
    no connection is closed.  The taken-check and the registration are one
    atomic transition here, mirroring the single `clients_lock` critical
    section of `_handle_connect` that encloses both. -/
theorem connect_username_taken (st : ChatServer) (c : ClientConn) (m : RMsg)
    (htaken : dictMem st.usernameToClient
      ((pget m.payload "username").getD (.s ("User" ++ toString c.clientId))) = true) :
    handleConnect st c m = (st, [(c.clientId, createNack m "Username already taken")]) ∧
    pget (createNack m "Username already taken").payload "reason" =
      some (.s "Username already taken") := by
  refine ⟨?_, by simp [createNack, pget]⟩
  unfold handleConnect
  dsimp only
  rw [if_pos htaken]

/-- Witness for C4: with username A bound to session 1, a CONNECT for A from
    session 2 returns the unchanged state and one NACK. -/
theorem connect_username_taken_witness :
    (handleConnect stAB connB0 mConnectA =
      (stAB, [(2, createNack mConnectA "Username already taken")])) ∧
    pget (createNack mConnectA "Username already taken").payload "reason" =
      some (.s "Username already taken") :=
  connect_username_taken stAB connB0 mConnectA (by decide)

/-- C10: a CONNECT whose payload lacks the username key is not rejected for
    that reason: the handler behaves exactly as if the synthesized name
    `User<client_id>` had been supplied, and (when that name is unbound)
    proceeds with its registration — the session's username becomes the
    synthesized name, the name is bound in the username index, and no NACK
    is sent. -/
theorem connect_missing_username (st : ChatServer) (c : ClientConn) (m : RMsg)
    (hno : pget m.payload "username" = none) :
    handleConnect st c m =
      handleConnect st c
        ⟨m.mtype, m.seq, [("username", .s ("User" ++ toString c.clientId))]⟩ ∧
    (dictMem st.usernameToClient (PVal.s ("User" ++ toString c.clientId)) = false →
      (∀ e ∈ (handleConnect st c m).1.clients, e.1 = c.clientId →
        e.2.username = some (.s ("User" ++ toString c.clientId))) ∧
      dictMem (handleConnect st c m).1.usernameToClient
        (.s ("User" ++ toString c.clientId)) = true ∧
      ∀ s ∈ (handleConnect st c m).2, s.2.mtype ≠ MessageType.NACK) := by
  have hu : (pget m.payload "username").getD (.s ("User" ++ toString c.clientId)) =
      .s ("User" ++ toString c.clientId) := by rw [hno]; rfl
  constructor
  · simp [handleConnect, hno, pget, createAck, createNack]
  · intro hfree
    unfold handleConnect
    dsimp only
    rw [hu, if_neg (by simp [hfree])]
    dsimp only
    refine ⟨?_, by simp [dictMem], ?_⟩
    · intro e he hkey
      obtain ⟨c0, he2⟩ := updateClient_mem_eq st.clients c.clientId _ e he hkey
      rw [he2]
    · intro s hs
      rcases List.mem_cons.mp hs with rfl | hs2
      · exact ackTypeFor_ne_NACK m.mtype
      · obtain ⟨cid, _, heq⟩ := List.mem_map.mp hs2
        rw [← heq]
        simp [broadcastMessage]

/-- Witness for C10: session 2 sends a CONNECT without a username key; the
    synthesized name User2 is free, its registration proceeds, and no NACK is
    sent. -/
theorem connect_missing_username_witness :
    dictMem stAB.usernameToClient (PVal.s ("User" ++ toString (2 : Nat))) = false ∧
    ((∀ e ∈ (handleConnect stAB connB0 mConnectNoName).1.clients, e.1 = connB0.clientId →
        e.2.username = some (.s ("User" ++ toString connB0.clientId))) ∧
      dictMem (handleConnect stAB connB0 mConnectNoName).1.usernameToClient
        (.s ("User" ++ toString connB0.clientId)) = true ∧
      ∀ s ∈ (handleConnect stAB connB0 mConnectNoName).2, s.2.mtype ≠ MessageType.NACK) :=
  ⟨by decide,
    (connect_missing_username stAB connB0 mConnectNoName (by decide)).2 (by decide)⟩

theorem handleAck_spec (st : ChatServer) (c : ClientConn) (m : RMsg) :
    (handleAck st c m).2 = [] ∧
    (∀ k, pget m.payload "ack_for" = some (.n k) →
      ∀ e ∈ (handleAck st c m).1.clients, e.1 = c.clientId →
        dictMem e.2.pendingAcks k = false) := by
  constructor
  · unfold handleAck
    rcases pget m.payload "ack_for" with _ | v
    · rfl
    · cases v <;> rfl
  · intro k hk e he hkey
    unfold handleAck at he
    rw [hk] at he
    dsimp only at he
    obtain ⟨c0, he2⟩ := updateClient_mem_eq st.clients c.clientId _ e he hkey
    rw [he2]
    exact dictMem_delKey c0.pendingAcks k

/-- C6 is contradicted by the code: a NACK frame (and likewise a
    HEARTBEAT_ACK frame) naming a sequence number that IS pending for the
    session does not resolve the pending-send table — the router's ACK branch
    lists only CHAT_ACK, BROADCAST_ACK, PRIVATE_ACK and CONNECT_ACK, so NACK
    and HEARTBEAT_ACK fall into the "Unknown message type" branch: the state
    is unchanged and the matching entry (here sequence 5) remains. -/
theorem ack_routing_counterexample :
    processMessage stP connP nackToServer = (stP, []) ∧
    processMessage stP connP hbAckToServer = (stP, []) ∧
    dictMem connP.pendingAcks 5 = true := by
  decide

/-- C6 amended: inbound CHAT_ACK, BROADCAST_ACK, PRIVATE_ACK and CONNECT_ACK
    frames resolve the sending session's pending-send table (removing the
    entry matching the acknowledged sequence number, if present); NACK and
    HEARTBEAT_ACK frames are ignored entirely (treated as unknown, no
    resolution); in all these cases nothing is echoed or forwarded to any
    session. -/
theorem ack_routing_amended (st : ChatServer) (c : ClientConn) (m : RMsg)
    (h : m.mtype = .CHAT_ACK ∨ m.mtype = .BROADCAST_ACK ∨ m.mtype = .PRIVATE_ACK ∨
      m.mtype = .CONNECT_ACK ∨ m.mtype = .NACK ∨ m.mtype = .HEARTBEAT_ACK) :
    (processMessage st c m).2 = [] ∧
    ((m.mtype = .NACK ∨ m.mtype = .HEARTBEAT_ACK) → processMessage st c m = (st, [])) ∧
    ((m.mtype = .CHAT_ACK ∨ m.mtype = .BROADCAST_ACK ∨ m.mtype = .PRIVATE_ACK ∨
        m.mtype = .CONNECT_ACK) →
      ∀ k, pget m.payload "ack_for" = some (.n k) →
        ∀ e ∈ (processMessage st c m).1.clients, e.1 = c.clientId →
          dictMem e.2.pendingAcks k = false) := by
  have hs := handleAck_spec st c m
  rcases h with h | h | h | h | h | h
  · simp only [processMessage, h]
    exact ⟨hs.1, by rintro (h2 | h2) <;> exact absurd h2 (by decide),
      fun _ k hk => hs.2 k hk⟩
  · simp only [processMessage, h]
    exact ⟨hs.1, by rintro (h2 | h2) <;> exact absurd h2 (by decide),
      fun _ k hk => hs.2 k hk⟩
  · simp only [processMessage, h]
    exact ⟨hs.1, by rintro (h2 | h2) <;> exact absurd h2 (by decide),
      fun _ k hk => hs.2 k hk⟩
  · simp only [processMessage, h]
    exact ⟨hs.1, by rintro (h2 | h2) <;> exact absurd h2 (by decide),
      fun _ k hk => hs.2 k hk⟩
  · simp only [processMessage, h]
    exact ⟨trivial, fun _ => trivial,
      by rintro (h2 | h2 | h2 | h2) <;> exact absurd h2 (by decide)⟩
  · simp only [processMessage, h]
    exact ⟨trivial, fun _ => trivial,
      by rintro (h2 | h2 | h2 | h2) <;> exact absurd h2 (by decide)⟩

/-- Witness for C6 (amended): a CHAT_ACK naming pending sequence number 5
    sends nothing onward and leaves no entry for 5 in the session's
    pending-send table. -/
theorem ack_routing_witness :
    (processMessage stP connP chatAckToServer).2 = [] ∧
    (∀ e ∈ (processMessage stP connP chatAckToServer).1.clients,
      e.1 = connP.clientId → dictMem e.2.pendingAcks 5 = false) :=
  ⟨(ack_routing_amended stP connP chatAckToServer (Or.inl rfl)).1,
    fun e he hkey =>
      (ack_routing_amended stP connP chatAckToServer (Or.inl rfl)).2.2
        (Or.inl rfl) 5 (by decide) e he hkey⟩

theorem recipientsOf_map_self (ids : List Nat) (msg : RMsg) :
    recipientsOf (ids.map (fun i => (i, msg))) msg = ids := by
  induction ids with
  | nil => rfl
  | cons i ids ih =>
    unfold recipientsOf
    rw [List.map_cons, List.filter_cons, if_pos (by simp)]
    rw [List.map_cons]
    simp only [List.cons.injEq, true_and]
    exact ih

theorem recipientsOf_cons_ne (p : Nat × RMsg) (l : List (Nat × RMsg)) (msg : RMsg)
    (h : p.2 ≠ msg) : recipientsOf (p :: l) msg = recipientsOf l msg := by
  simp [recipientsOf, List.filter_cons, h]

theorem filter_length_split (l : List (Nat × ClientConn)) (P : Nat × ClientConn → Bool)
    (cid : Nat) (c : ClientConn) (hn : (l.map Prod.fst).Nodup)
    (hmem : (cid, c) ∈ l) (hP : P (cid, c) = true) :
    (l.filter P).length = (l.filter (fun e => P e && decide (e.1 ≠ cid))).length + 1 := by
  induction l with
  | nil => cases hmem
  | cons e rest ih =>
    simp only [List.map_cons, List.nodup_cons] at hn
    obtain ⟨hnot, hn2⟩ := hn
    rcases List.mem_cons.mp hmem with heq | hmem2
    · rw [← heq] at hnot ⊢
      rw [List.filter_cons, List.filter_cons, if_pos hP, if_neg (by simp)]
      simp only [List.length_cons, Nat.add_right_cancel_iff]
      have hcongr : rest.filter (fun e => P e && decide (e.1 ≠ cid)) = rest.filter P := by
        apply List.filter_congr
        intro x hx
        have hxne : x.1 ≠ cid := by
          intro hh
          have hin : x.1 ∈ rest.map Prod.fst := List.mem_map_of_mem Prod.fst hx
          rw [hh] at hin
          exact hnot hin
        simp [hxne]
      rw [hcongr]
    · have hecid : e.1 ≠ cid := by
        intro hh
        exact hnot (by rw [hh]; exact List.mem_map_of_mem Prod.fst hmem2)
      have ihx := ih hn2 hmem2
      by_cases hPe : P e = true
      · rw [List.filter_cons, List.filter_cons, if_pos hPe, if_pos (by simp [hPe, hecid])]
        simp only [List.length_cons]
        omega
      · rw [List.filter_cons, List.filter_cons, if_neg hPe,
          if_neg (by simp [Bool.and_eq_true, hPe])]
        exact ihx

theorem broadcastTargets_none (clients : List (Nat × ClientConn)) :
    broadcastTargets clients none =
      (clients.filter (fun e => e.2.connected && pyTruthy e.2.username)).map
        (fun e => e.1) := by
  unfold broadcastTargets
  congr 1
  apply List.filter_congr
  intro x hx
  show (x.2.connected && true && pyTruthy x.2.username) = _
  rw [Bool.and_true]

theorem broadcastTargets_some (clients : List (Nat × ClientConn)) (x : Nat) :
    broadcastTargets clients (some x) =
      (clients.filter (fun e => e.2.connected && decide (e.1 ≠ x) &&
        pyTruthy e.2.username)).map (fun e => e.1) := rfl

/-- C5 is contradicted by the code on an edge case: broadcast eligibility is
    the Python truthiness test `c.username`, which excludes a session bound to
    the empty-string username even though it is username-bound and connected.
    Concretely: session 2 registers the username "" (so it is REGISTERED:
    username bound, connected), yet a BROADCAST from session 1 is delivered
    only to session 1 — one recipient, not N+1 = 2, and not every registered
    session receives it. -/
theorem broadcast_fanout_counterexample :
    ((dictGet stAB2.clients 2).map (fun cc => cc.username.isSome && cc.connected) =
      some true) ∧
    (handleBroadcast stAB2 connA bmsgA).2 = [(1, createAck bmsgA), (1, bmsgA)] := by
  decide

/-- C5 amended: an inbound BROADCAST gets exactly one ACK back to the sender,
    and the original message is fanned out exactly once to every connected
    session whose bound username is truthy (nonempty — Python's `c.username`
    test; sessions bound to a falsy name such as the empty string are
    skipped), including the sender; with N other such clients the fan-out has
    N+1 recipients.  For CHAT_MSG the fan-out is the same with the sender
    excluded. -/
theorem broadcast_fanout_amended (st : ChatServer) (c : ClientConn) (m m2 : RMsg)
    (hnodup : (st.clients.map Prod.fst).Nodup)
    (hmem : (c.clientId, c) ∈ st.clients)
    (hconn : c.connected = true) (hreg : pyTruthy c.username = true)
    (hbm : m.mtype = .BROADCAST) (hcm : m2.mtype = .CHAT_MSG) :
    ((handleBroadcast st c m).2.filter (fun e =>
      decide (e.1 = c.clientId) &&
        decide (e.2.mtype = MessageType.BROADCAST_ACK))).length = 1 ∧
    (∀ i, i ∈ recipientsOf (handleBroadcast st c m).2 m ↔
      ∃ cc, (i, cc) ∈ st.clients ∧ cc.connected = true ∧ pyTruthy cc.username = true) ∧
    (recipientsOf (handleBroadcast st c m).2 m).Nodup ∧
    c.clientId ∈ recipientsOf (handleBroadcast st c m).2 m ∧
    (recipientsOf (handleBroadcast st c m).2 m).length =
      (st.clients.filter (fun e => e.2.connected && pyTruthy e.2.username &&
        decide (e.1 ≠ c.clientId))).length + 1 ∧
    (∀ i, i ∈ recipientsOf (handleChatMessage st c m2).2 m2 ↔
      (i ≠ c.clientId ∧ ∃ cc, (i, cc) ∈ st.clients ∧ cc.connected = true ∧
        pyTruthy cc.username = true)) := by
  have hackB : (createAck m).mtype = .BROADCAST_ACK := by
    show ackTypeFor m.mtype = _
    rw [hbm]
    rfl
  have hackneB : createAck m ≠ m := by
    intro hcontra
    have h2 := congrArg RMsg.mtype hcontra
    rw [hackB, hbm] at h2
    exact absurd h2 (by decide)
  have hackC : (createAck m2).mtype = .CHAT_ACK := by
    show ackTypeFor m2.mtype = _
    rw [hcm]
    rfl
  have hackneC : createAck m2 ≠ m2 := by
    intro hcontra
    have h2 := congrArg RMsg.mtype hcontra
    rw [hackC, hcm] at h2
    exact absurd h2 (by decide)
  have eB : recipientsOf (handleBroadcast st c m).2 m = broadcastTargets st.clients none := by
    unfold handleBroadcast
    dsimp only
    rw [recipientsOf_cons_ne _ _ _ hackneB]
    exact recipientsOf_map_self _ _
  have eC : recipientsOf (handleChatMessage st c m2).2 m2 =
      broadcastTargets st.clients (some c.clientId) := by
    unfold handleChatMessage
    dsimp only
    rw [recipientsOf_cons_ne _ _ _ hackneC]
    exact recipientsOf_map_self _ _
  refine ⟨?_, ?_, ?_, ?_, ?_, ?_⟩
  · unfold handleBroadcast
    dsimp only
    rw [List.filter_cons, if_pos (by simp [hackB])]
    have hnil : ((broadcastTargets st.clients none).map (fun cid => (cid, m))).filter
        (fun e => decide (e.1 = c.clientId) &&
          decide (e.2.mtype = MessageType.BROADCAST_ACK)) = [] := by
      rw [List.filter_eq_nil_iff]
      intro a ha
      obtain ⟨cid, _, heq⟩ := List.mem_map.mp ha
      rw [← heq]
      simp [hbm]
    rw [hnil]
    rfl
  · intro i
    rw [eB, broadcastTargets_none]
    constructor
    · intro hi
      obtain ⟨e, he, heq⟩ := List.mem_map.mp hi
      obtain ⟨hmem2, hcond⟩ := List.mem_filter.mp he
      simp only [Bool.and_eq_true] at hcond
      refine ⟨e.2, ?_, hcond.1, hcond.2⟩
      rw [← heq]
      exact hmem2
    · rintro ⟨cc, hmemcc, hc1, hc2⟩
      exact List.mem_map.mpr ⟨(i, cc), List.mem_filter.mpr ⟨hmemcc, by simp [hc1, hc2]⟩, rfl⟩
  · rw [eB, broadcastTargets_none]
    exact ((List.filter_sublist _).map _).nodup hnodup
  · rw [eB, broadcastTargets_none]
    exact List.mem_map.mpr ⟨(c.clientId, c),
      List.mem_filter.mpr ⟨hmem, by simp [hconn, hreg]⟩, rfl⟩
  · rw [eB, broadcastTargets_none, List.length_map]
    exact filter_length_split st.clients
      (fun e => e.2.connected && pyTruthy e.2.username) c.clientId c hnodup hmem
      (by simp [hconn, hreg])
  · intro i
    rw [eC, broadcastTargets_some]
    constructor
    · intro hi
      obtain ⟨e, he, heq⟩ := List.mem_map.mp hi
      obtain ⟨hmem2, hcond⟩ := List.mem_filter.mp he
      simp only [Bool.and_eq_true, decide_eq_true_eq] at hcond
      refine ⟨by rw [← heq]; exact hcond.1.2, e.2, ?_, hcond.1.1, hcond.2⟩
      rw [← heq]
      exact hmem2
    · rintro ⟨hne, cc, hmemcc, hc1, hc2⟩
      exact List.mem_map.mpr ⟨(i, cc),
        List.mem_filter.mpr ⟨hmemcc, by simp [hc1, hc2, hne]⟩, rfl⟩

/-- Witness for C5 (amended): with sessions A and B registered (truthy names)
    and one unregistered session, a BROADCAST from A yields exactly one ACK to
    A, A is among the recipients, and the recipient count is N + 1 = 2. -/
theorem broadcast_fanout_witness :
    ((handleBroadcast stABU connA bmsgA).2.filter (fun e =>
      decide (e.1 = connA.clientId) &&
        decide (e.2.mtype = MessageType.BROADCAST_ACK))).length = 1 ∧
    connA.clientId ∈ recipientsOf (handleBroadcast stABU connA bmsgA).2 bmsgA ∧
    (recipientsOf (handleBroadcast stABU connA bmsgA).2 bmsgA).length =
      (stABU.clients.filter (fun e => e.2.connected && pyTruthy e.2.username &&
        decide (e.1 ≠ connA.clientId))).length + 1 := by
  have h := broadcast_fanout_amended stABU connA bmsgA cmsgA (by decide) (by decide)
    (by decide) (by decide) rfl rfl
  exact ⟨h.1, h.2.2.2.1, h.2.2.2.2.1⟩

/-- C1 is contradicted by the code (a code bug): the receive path does remove
    the pending entry via the `nack_for` sequence number (`_handle_nack`),
    and no further retries happen, but `_send_reliable` then reports SUCCESS —
    its wait loop treats any removal of the pending entry as an ACK, so a
    rejected message is not distinguished from an acknowledged one and the
    promised failure result (per the function's own docstring, `True` only
    `if ACK received`) is not returned.  Evaluated at the failing input: a
    NACK answering the first transmission. -/
theorem nack_removes_entry_but_send_reports_success :
    clientHandleNack [(7, connectMsg7)] nackMsg7 = [] ∧
    sendReliable (fun _ => AttemptOutcome.nacked) =
      (true, [SendEv.transmit 1, SendEv.register, SendEv.resolve]) ∧
    transmissionCount (sendReliable (fun _ => AttemptOutcome.nacked)).2 = 1 := by
  decide

end Chat
